import Mathlib

/-!
Verification of the jetemail-node SDK (a TypeScript client for the
JetEmail transactional-email HTTP API) against its specification.

We shallowly embed the runtime behaviour of the source files
`src/types.ts`, `src/emails.ts` and `src/client.ts`:

* JSON values are modelled by the inductive `Json`; `JSON.stringify` by
  `Json.stringify`; JavaScript truthiness of optional string fields by
  `optStrTruthy` / `recipientTruthy`.
* An HTTP response is a status code together with an optional decoded
  body (`none` models a body that `response.json()` fails to decode).
* Throwing is modelled by `Except`: local validation throws plain
  `Error`s (modelled as `String` messages), while the dispatch routine
  throws `JetEmailError` values (message, statusCode, optional decoded
  response body).  The sum `SdkError` separates the two classes.
* Issuing the single `fetch` POST is modelled by building a
  `FetchRequest` value and passing it to an arbitrary transport
  function `FetchRequest → HttpResponse`.  A send operation that
  returns `.error` before ever producing a `FetchRequest` performs no
  network activity.
-/

/-- JSON values, as produced by `JSON.parse` / consumed by `JSON.stringify`. -/
inductive Json where
  | null : Json
  | bool (b : Bool) : Json
  | num (n : Int) : Json
  | str (s : String) : Json
  | arr (elems : List Json) : Json
  | obj (fields : List (String × Json)) : Json
deriving Repr

/-- Quote a string as a JSON string literal (escaping quote and backslash). -/
def jsonQuote (s : String) : String :=
  "\"" ++ (s.data.map fun c =>
    if c = '"' then "\\\"" else if c = '\\' then "\\\\" else String.singleton c).foldl
      (· ++ ·) "" ++ "\""

mutual

/-- `JSON.stringify` on our JSON model. -/
def Json.stringify : Json → String
  | .null => "null"
  | .bool b => cond b ("true") ("false")
  | .num n => toString n
  | .str s => jsonQuote s
  | .arr es => "[" ++ Json.stringifyElems es ++ "]"
  | .obj fs => "\x7b" ++ Json.stringifyFields fs ++ "\x7d"

def Json.stringifyElems : List Json → String
  | [] => ""
  | [e] => Json.stringify e
  | e :: rest => Json.stringify e ++ "," ++ Json.stringifyElems rest

def Json.stringifyFields : List (String × Json) → String
  | [] => ""
  | [(k, v)] => jsonQuote k ++ ":" ++ Json.stringify v
  | (k, v) :: rest => jsonQuote k ++ ":" ++ Json.stringify v ++ "," ++ Json.stringifyFields rest

end

/-- Property access `data[key]` on a decoded JSON object. -/
def Json.getField : Json → String → Option Json
  | .obj fs, key => fs.lookup key
  | _, _ => none

/-- Read a string-typed field of a decoded JSON object (the
`ApiErrorResponse` interface declares `message` and `error` as strings). -/
def strField (data : Json) (key : String) : Option String :=
  match data.getField key with
  | some (.str s) => some s
  | _ => none

/-- JavaScript `a || b` for an optional string `a`: a missing field and the
empty string are both falsy. -/
def jsOr (a : Option String) (b : String) : String :=
  match a with
  | some s => if s = "" then b else s
  | none => b

/-- `src/types.ts`: `EmailRecipient = string | string[]`. -/
inductive EmailRecipient where
  | single (s : String) : EmailRecipient
  | many (l : List String) : EmailRecipient
deriving Repr

/-- `src/types.ts`: an email attachment (`filename` + base64 `data`). -/
structure Attachment where
  filename : String
  data : String
deriving Repr

/-- `src/types.ts`: `SendEmailOptions`.  Every field is optional at the
JavaScript runtime level (callers may omit statically-required fields),
so we model each as an `Option`; validation then applies truthiness. -/
structure SendEmailOptions where
  «from» : Option String := none
  «to» : Option EmailRecipient := none
  subject : Option String := none
  html : Option String := none
  text : Option String := none
  cc : Option EmailRecipient := none
  bcc : Option EmailRecipient := none
  reply_to : Option EmailRecipient := none
  headers : Option (List (String × String)) := none
  attachments : Option (List Attachment) := none
deriving Repr

/-- JavaScript truthiness of an optional string field: absent (`undefined`)
and the empty string are falsy, every other string is truthy. -/
def optStrTruthy : Option String → Bool
  | none => false
  | some s => !(s = "")

/-- JavaScript truthiness of the `to` field: absent is falsy, a string is
truthy iff nonempty, and an array is always truthy (even when empty). -/
def recipientTruthy : Option EmailRecipient → Bool
  | none => false
  | some (.single s) => !(s = "")
  | some (.many _) => true

/-- Encode an `EmailRecipient` as JSON. -/
def encodeRecipient : EmailRecipient → Json
  | .single s => .str s
  | .many l => .arr (l.map Json.str)

/-- Encode an `Attachment` as JSON. -/
def encodeAttachment (a : Attachment) : Json :=
  .obj [("filename", .str a.filename), ("data", .str a.data)]

/-- Encode `SendEmailOptions` as the JSON object `JSON.stringify` sees:
fields holding `undefined` are dropped. -/
def encodeOptions (o : SendEmailOptions) : Json :=
  .obj
    ((match o.«from» with | some s => [("from", Json.str s)] | none => []) ++
     (match o.«to» with | some r => [("to", encodeRecipient r)] | none => []) ++
     (match o.subject with | some s => [("subject", Json.str s)] | none => []) ++
     (match o.html with | some s => [("html", Json.str s)] | none => []) ++
     (match o.text with | some s => [("text", Json.str s)] | none => []) ++
     (match o.cc with | some r => [("cc", encodeRecipient r)] | none => []) ++
     (match o.bcc with | some r => [("bcc", encodeRecipient r)] | none => []) ++
     (match o.reply_to with | some r => [("reply_to", encodeRecipient r)] | none => []) ++
     (match o.headers with
      | some hs => [("headers", Json.obj (hs.map fun kv => (kv.1, Json.str kv.2)))]
      | none => []) ++
     (match o.attachments with
      | some l => [("attachments", Json.arr (l.map encodeAttachment))]
      | none => []))

namespace Emails

/-- `src/emails.ts`, `Emails.validateEmailOptions`: four truthiness checks
in order (`from`, `to`, `subject`, then `html`/`text`), each throwing its
own message; the first failing check throws and no later check runs. -/
def validateEmailOptions (options : SendEmailOptions) : Except String Unit :=
  if !optStrTruthy options.«from» then
    .error ("JetEmail: \"from\" is required")
  else if !recipientTruthy options.«to» then
    .error ("JetEmail: \"to\" is required")
  else if !optStrTruthy options.subject then
    .error ("JetEmail: \"subject\" is required")
  else if !optStrTruthy options.html && !optStrTruthy options.text then
    .error ("JetEmail: at least one of \"html\" or \"text\" is required")
  else
    .ok ()

/-- `src/emails.ts`, `Emails.send`: validate, then call
`this.request('/email', options)`.  The result records the endpoint and
body handed to the dispatch routine; an `.error` result is thrown before
any request is built. -/
def sendPrepare (options : SendEmailOptions) : Except String (String × Json) :=
  match validateEmailOptions options with
  | .error m => .error m
  | .ok () => .ok ("/email", encodeOptions options)

end Emails

/-- The batch argument at the JavaScript runtime level: `Array.isArray`
distinguishes a proper array from any other value. -/
inductive BatchArg where
  | notArray : BatchArg
  | arr (emails : List SendEmailOptions) : BatchArg

namespace Batch

/-- `src/emails.ts`, `Batch.validateEmailOptions`: identical to the
single-send validator (the source duplicates the code). -/
def validateEmailOptions (options : SendEmailOptions) : Except String Unit :=
  if !optStrTruthy options.«from» then
    .error ("JetEmail: \"from\" is required")
  else if !recipientTruthy options.«to» then
    .error ("JetEmail: \"to\" is required")
  else if !optStrTruthy options.subject then
    .error ("JetEmail: \"subject\" is required")
  else if !optStrTruthy options.html && !optStrTruthy options.text then
    .error ("JetEmail: at least one of \"html\" or \"text\" is required")
  else
    .ok ()

/-- The wrapped per-item message `JetEmail: email at index ${index} is
invalid - ${message}` thrown by `Batch.send`'s `forEach` handler. -/
def indexMsg (index : Nat) (message : String) : String :=
  "JetEmail: email at index " ++ toString index ++ " is invalid - " ++ message

/-- `src/emails.ts`, the `emails.forEach((email, index) => ...)` loop in
`Batch.send`: validate each item in order starting at `index`; the first
failure throws the wrapped message and stops the loop. -/
def validateFrom (index : Nat) : List SendEmailOptions → Except String Unit
  | [] => .ok ()
  | email :: rest =>
    match validateEmailOptions email with
    | .error m => .error (indexMsg index m)
    | .ok () => validateFrom (index + 1) rest

/-- `src/emails.ts`, `Batch.send`: reject non-arrays and empty arrays
(one shared message), then arrays longer than 100, then validate each
item in order; only then call `this.request('/email-batch', { emails })`.
An `.error` result is thrown before any request is built. -/
def send (emails : BatchArg) : Except String (String × Json) :=
  match emails with
  | .notArray => .error ("JetEmail: emails array is required and must not be empty")
  | .arr es =>
    if es.length = 0 then
      .error ("JetEmail: emails array is required and must not be empty")
    else if es.length > 100 then
      .error ("JetEmail: maximum batch size is 100 emails")
    else
      match validateFrom 0 es with
      | .error m => .error m
      | .ok () => .ok ("/email-batch", Json.obj [("emails", Json.arr (es.map encodeOptions))])

end Batch

/-- `src/client.ts`, `DEFAULT_BASE_URL`. -/
def DEFAULT_BASE_URL : String := "https://api.jetemail.com"

/-- `config.baseUrl?.replace(/\/$/, '')` in the constructor: strip a
single trailing slash if present. -/
def stripTrailingSlash (s : String) : String :=
  if s.data.getLast? = some '/' then String.mk s.data.dropLast else s

/-- The state a `JetEmail` instance stores after construction. -/
structure Client where
  apiKey : String
  baseUrl : String
deriving Repr

/-- `src/types.ts`, `JetEmailConfig`: `apiKey` plus optional `baseUrl`.
A missing `apiKey` at runtime is modelled as the empty string (both are
falsy, and `!config.apiKey` is the only check applied). -/
structure JetEmailConfig where
  apiKey : String
  baseUrl : Option String := none

/-- The constructor argument: either a bare API-key string or a
configuration record (the two TypeScript overloads). -/
inductive CtorArg where
  | key (apiKey : String) : CtorArg
  | cfg (config : JetEmailConfig) : CtorArg

/-- `src/client.ts`, the `JetEmail` constructor: normalize the overloaded
argument to a config record, throw if `config.apiKey` is falsy, then
store the key and the normalized base URL
(`config.baseUrl?.replace(/\/$/, '') ?? DEFAULT_BASE_URL`). -/
def mkJetEmail (configOrApiKey : CtorArg) : Except String Client :=
  let config : JetEmailConfig :=
    match configOrApiKey with
    | .key s => { apiKey := s }
    | .cfg c => c
  if config.apiKey = "" then
    .error ("JetEmail: apiKey is required")
  else
    .ok { apiKey := config.apiKey,
          baseUrl := (config.baseUrl.map stripTrailingSlash).getD DEFAULT_BASE_URL }

/-- The single `fetch` call the dispatch routine issues: URL, method,
headers and serialized body. -/
structure FetchRequest where
  url : String
  method : String
  headers : List (String × String)
  body : String
deriving Repr

/-- An HTTP response as the dispatch routine observes it: the numeric
status code, and the decoded JSON body (`none` when `response.json()`
throws, e.g. on an empty or non-JSON body). -/
structure HttpResponse where
  status : Nat
  body : Option Json

/-- `response.ok` of the Fetch API: status in the inclusive range 200-299. -/
def statusOk (status : Nat) : Bool :=
  decide (200 ≤ status) && decide (status < 300)

/-- `src/types.ts`, `JetEmailError`: message, `statusCode`, and the
optional decoded error `response` body. -/
structure JetEmailError where
  message : String
  statusCode : Nat
  response : Option Json := none

/-- `errorResponse.message || errorResponse.error || 'Unknown error'`. -/
def apiErrMessage (data : Json) : String :=
  jsOr (strField data "message") (jsOr (strField data "error") ("Unknown error"))

/-- `src/client.ts`, `JetEmail.request`: the request the routine passes to
`fetch` — POST to `${this.baseUrl}${endpoint}`, exactly two headers
(`Content-Type` and the bearer `Authorization`), body `JSON.stringify(body)`. -/
def buildFetchRequest (c : Client) (endpoint : String) (body : Json) : FetchRequest :=
  { url := c.baseUrl ++ endpoint,
    method := "POST",
    headers := [("Content-Type", "application/json"),
                ("Authorization", "Bearer " ++ c.apiKey)],
    body := Json.stringify body }

/-- `src/client.ts`, the response half of `JetEmail.request`: if decoding
the body failed, throw `JetEmailError` with a generic message, the status
code, and no response payload (regardless of the status code); otherwise
if `!response.ok`, throw `JetEmailError` with the best-available message
and the full decoded payload; otherwise return the decoded body verbatim. -/
def handleResponse (response : HttpResponse) : Except JetEmailError Json :=
  match response.body with
  | none =>
    .error { message := "Request failed with status " ++ toString response.status,
             statusCode := response.status }
  | some data =>
    if statusOk response.status then
      .ok data
    else
      .error { message := apiErrMessage data,
               statusCode := response.status,
               response := some data }

/-- `src/client.ts`, `JetEmail.request` end to end: build the single POST
request, hand it to the transport (`fetch`), and normalize the response. -/
def request (c : Client) (transport : FetchRequest → HttpResponse)
    (endpoint : String) (body : Json) : Except JetEmailError Json :=
  handleResponse (transport (buildFetchRequest c endpoint body))

/-- The two classes of error a send operation can raise: a plain `Error`
from local validation, or a `JetEmailError` from the dispatch routine. -/
inductive SdkError where
  | plainError (message : String) : SdkError
  | apiError (e : JetEmailError) : SdkError

/-- `jetemail.email.send(options)` end to end: local validation (plain
errors, no network), then the dispatch routine (structured errors). -/
def fullSend (c : Client) (transport : FetchRequest → HttpResponse)
    (options : SendEmailOptions) : Except SdkError Json :=
  match Emails.sendPrepare options with
  | .error m => .error (.plainError m)
  | .ok (endpoint, body) =>
    match request c transport endpoint body with
    | .error e => .error (.apiError e)
    | .ok data => .ok data

/-- `jetemail.batch.send(emails)` end to end: local validation (plain
errors, no network), then the dispatch routine (structured errors). -/
def fullBatchSend (c : Client) (transport : FetchRequest → HttpResponse)
    (emails : BatchArg) : Except SdkError Json :=
  match Batch.send emails with
  | .error m => .error (.plainError m)
  | .ok (endpoint, body) =>
    match request c transport endpoint body with
    | .error e => .error (.apiError e)
    | .ok data => .ok data

/-- A well-formed send request, used to instantiate witnesses. -/
def sampleValid : SendEmailOptions :=
  { «from» := some "A <a@x.com>", «to» := some (.single "b@y.com"),
    subject := some "Hi", text := some "hello" }

/-- C1: single-send validation runs synchronously before any network
call, checking sender, recipient, subject, then HTML/text presence in
that order; the first failing check raises with its own distinct message
and no later check runs (`sendPrepare` propagates the error without ever
building a request). -/
theorem c1_single_send_validation_order (o : SendEmailOptions) :
    (optStrTruthy o.«from» = false →
      Emails.validateEmailOptions o = .error ("JetEmail: \"from\" is required")) ∧
    (optStrTruthy o.«from» = true → recipientTruthy o.«to» = false →
      Emails.validateEmailOptions o = .error ("JetEmail: \"to\" is required")) ∧
    (optStrTruthy o.«from» = true → recipientTruthy o.«to» = true →
      optStrTruthy o.subject = false →
      Emails.validateEmailOptions o = .error ("JetEmail: \"subject\" is required")) ∧
    (optStrTruthy o.«from» = true → recipientTruthy o.«to» = true →
      optStrTruthy o.subject = true →
      optStrTruthy o.html = false → optStrTruthy o.text = false →
      Emails.validateEmailOptions o =
        .error ("JetEmail: at least one of \"html\" or \"text\" is required")) ∧
    (∀ m, Emails.validateEmailOptions o = .error m → Emails.sendPrepare o = .error m) ∧
    List.Pairwise (fun a b => a ≠ b)
      ["JetEmail: \"from\" is required", "JetEmail: \"to\" is required",
       "JetEmail: \"subject\" is required",
       "JetEmail: at least one of \"html\" or \"text\" is required"] := by
  refine ⟨?_, ?_, ?_, ?_, ?_, by decide⟩
  · intro h; simp [Emails.validateEmailOptions, h]
  · intro h1 h2; simp [Emails.validateEmailOptions, h1, h2]
  · intro h1 h2 h3; simp [Emails.validateEmailOptions, h1, h2, h3]
  · intro h1 h2 h3 h4 h5; simp [Emails.validateEmailOptions, h1, h2, h3, h4, h5]
  · intro m h; simp [Emails.sendPrepare, h]

/-- C1 witness: a request missing `from` is rejected with the `from`
message and single-send raises before building any request. -/
theorem c1_single_send_validation_order_witness :
    Emails.validateEmailOptions
      { «to» := some (.single "b@y.com"), subject := some "Hi", text := some "hello" } =
      .error ("JetEmail: \"from\" is required") ∧
    Emails.sendPrepare
      { «to» := some (.single "b@y.com"), subject := some "Hi", text := some "hello" } =
      .error ("JetEmail: \"from\" is required") := by
  have h := c1_single_send_validation_order
    { «to» := some (.single "b@y.com"), subject := some "Hi", text := some "hello" }
  have hv := h.1 (by decide)
  exact ⟨hv, h.2.2.2.2.1 _ hv⟩

/-- C2: a non-success response with a decodable body raises a
`JetEmailError` whose `statusCode` is the response status, whose
`response` carries the full decoded payload, and whose message is the
body's `message` field, falling back to its `error` field, falling back
to `"Unknown error"` (empty strings are falsy, so they fall through). -/
theorem c2_api_reported_error (status : Nat) (data : Json) (h : statusOk status = false) :
    handleResponse { status := status, body := some data } =
      .error { message := apiErrMessage data, statusCode := status, response := some data } ∧
    (∀ s, strField data "message" = some s → s ≠ "" → apiErrMessage data = s) ∧
    (∀ t, (strField data "message" = none ∨ strField data "message" = some "") →
      strField data "error" = some t → t ≠ "" → apiErrMessage data = t) ∧
    ((strField data "message" = none ∨ strField data "message" = some "") →
      (strField data "error" = none ∨ strField data "error" = some "") →
      apiErrMessage data = "Unknown error") := by
  refine ⟨by simp [handleResponse, h], ?_, ?_, ?_⟩
  · intro s hs hne
    simp [apiErrMessage, jsOr, hs, hne]
  · intro t hm ht hne
    rcases hm with hm | hm <;> simp [apiErrMessage, jsOr, hm, ht, hne]
  · intro hm he
    rcases hm with hm | hm <;> rcases he with he | he <;>
      simp [apiErrMessage, jsOr, hm, he]

/-- C2 witness: status 400 with body `{message: "invalid recipient"}`
raises a structured error with status 400, that message, and the payload. -/
theorem c2_api_reported_error_witness :
    handleResponse
      { status := 400, body := some (Json.obj [("message", Json.str "invalid recipient")]) } =
      .error { message := "invalid recipient", statusCode := 400,
               response := some (Json.obj [("message", Json.str "invalid recipient")]) } := by
  have h := c2_api_reported_error 400 (Json.obj [("message", Json.str "invalid recipient")])
    (by decide)
  have hm := h.2.1 "invalid recipient" rfl (by decide)
  rw [h.1, hm]

/-- C6: a success (2xx) response returns the decoded body verbatim, with
no validation or transformation of its fields. -/
theorem c6_success_returns_body_verbatim (status : Nat) (data : Json)
    (h : statusOk status = true) :
    handleResponse { status := status, body := some data } = .ok data := by
  simp [handleResponse, h]

/-- C6 witness: a 200 response with body `{id: "abc", response: "queued"}`
yields exactly that object, whose `id` and `response` fields are intact. -/
theorem c6_success_returns_body_verbatim_witness :
    handleResponse
      { status := 200,
        body := some (Json.obj [("id", Json.str "abc"), ("response", Json.str "queued")]) } =
      .ok (Json.obj [("id", Json.str "abc"), ("response", Json.str "queued")]) ∧
    (Json.obj [("id", Json.str "abc"), ("response", Json.str "queued")]).getField "id" =
      some (Json.str "abc") ∧
    (Json.obj [("id", Json.str "abc"), ("response", Json.str "queued")]).getField "response" =
      some (Json.str "queued") := by
  exact ⟨c6_success_returns_body_verbatim 200 _ (by decide), rfl, rfl⟩

/-- C7: a response whose body fails to decode raises, regardless of the
status code, a `JetEmailError` carrying only the numeric status code and
the generic message, with no response payload. -/
theorem c7_undecodable_body (status : Nat) :
    handleResponse { status := status, body := none } =
      .error { message := "Request failed with status " ++ toString status,
               statusCode := status, response := none } := by
  rfl

/-- A send request whose `from` field is absent, used in witnesses. -/
def sampleMissingFrom : SendEmailOptions :=
  { «to» := some (.single "b@y.com"), subject := some "Hi", text := some "hello" }

/-- If every item of `es` validates, the `forEach` validation loop of
`Batch.send` succeeds from any starting index. -/
theorem validateFrom_ok (es : List SendEmailOptions)
    (h : ∀ e ∈ es, Batch.validateEmailOptions e = .ok ()) :
    ∀ i, Batch.validateFrom i es = .ok () := by
  induction es with
  | nil => intro i; rfl
  | cons e rest ih =>
    intro i
    have he : Batch.validateEmailOptions e = .ok () := h e (by simp)
    have hrest := ih fun x hx => h x (by simp [hx])
    simp [Batch.validateFrom, he, hrest]

/-- The `forEach` validation loop of `Batch.send` stops at the first
invalid item: if every item before position `k` validates and the item
at `k` fails with message `m`, the loop started at index `i` throws the
wrapped message for absolute index `i + k`. -/
theorem validateFrom_first_error (es : List SendEmailOptions) :
    ∀ (i k : Nat) (m : String) (hk : k < es.length),
      (∀ (j : Nat) (hj : j < es.length), j < k →
        Batch.validateEmailOptions (es.get ⟨j, hj⟩) = .ok ()) →
      Batch.validateEmailOptions (es.get ⟨k, hk⟩) = .error m →
      Batch.validateFrom i es = .error (Batch.indexMsg (i + k) m) := by
  induction es with
  | nil => intro i k m hk; exact absurd hk (by simp)
  | cons e rest ih =>
    intro i k m hk hok hfail
    cases k with
    | zero =>
      have he : Batch.validateEmailOptions e = .error m := hfail
      simp [Batch.validateFrom, he]
    | succ k' =>
      have he : Batch.validateEmailOptions e = .ok () :=
        hok 0 (by simp) (Nat.succ_pos k')
      have hk' : k' < rest.length := by
        simpa [Nat.succ_lt_succ_iff] using hk
      have hok' : ∀ (j : Nat) (hj : j < rest.length), j < k' →
          Batch.validateEmailOptions (rest.get ⟨j, hj⟩) = .ok () := by
        intro j hj hjk
        have := hok (j + 1) (by simpa [Nat.succ_lt_succ_iff] using hj)
          (by omega)
        simpa using this
      have hfail' : Batch.validateEmailOptions (rest.get ⟨k', hk'⟩) = .error m := by
        simpa using hfail
      have := ih (i + 1) k' m hk' hok' hfail'
      have harith : i + 1 + k' = i + (k' + 1) := by omega
      rw [harith] at this
      simp [Batch.validateFrom, he, this]

/-- C3: a batch whose first invalid item sits at zero-based position `k`
(all earlier items valid, batch shape otherwise acceptable) is rejected
with the message `JetEmail: email at index k is invalid - m`, which both
names the index `k` and wraps the inner validation message `m`
unmodified; validation stops there, and `Batch.send` (and hence the full
pipeline, for every client and transport) raises without ever building a
request, so no network call occurs. -/
theorem c3_batch_first_invalid_item (es : List SendEmailOptions) (k : Nat) (m : String)
    (hk : k < es.length) (hlen : es.length ≤ 100)
    (hbefore : ∀ (j : Nat) (hj : j < es.length), j < k →
      Batch.validateEmailOptions (es.get ⟨j, hj⟩) = .ok ())
    (hfail : Batch.validateEmailOptions (es.get ⟨k, hk⟩) = .error m) :
    Batch.send (.arr es) = .error (Batch.indexMsg k m) ∧
    Batch.indexMsg k m =
      "JetEmail: email at index " ++ toString k ++ " is invalid - " ++ m ∧
    ∀ (c : Client) (t : FetchRequest → HttpResponse),
      fullBatchSend c t (.arr es) = .error (.plainError (Batch.indexMsg k m)) := by
  have hne : es.length ≠ 0 := by omega
  have hle : ¬ es.length > 100 := by omega
  have hval : Batch.validateFrom 0 es = .error (Batch.indexMsg k m) := by
    have := validateFrom_first_error es 0 k m hk hbefore hfail
    simpa using this
  have hsend : Batch.send (.arr es) = .error (Batch.indexMsg k m) := by
    simp [Batch.send, hne, hle, hval]
  refine ⟨hsend, rfl, ?_⟩
  intro c t
  simp [fullBatchSend, hsend]

/-- C3 witness: a two-item batch whose second item lacks `from` is
rejected with the index-1 message wrapping the `from` message. -/
theorem c3_batch_first_invalid_item_witness :
    Batch.send (.arr [sampleValid, sampleMissingFrom]) =
      .error ("JetEmail: email at index 1 is invalid - JetEmail: \"from\" is required") := by
  have h := c3_batch_first_invalid_item [sampleValid, sampleMissingFrom] 1
    ("JetEmail: \"from\" is required") (by simp) (by simp)
    (by
      intro j hj hjk
      have hj0 : j = 0 := by omega
      subst hj0
      rfl)
    rfl
  rw [h.1]
  rfl

/-- C4 counterexample: the three pre-network rejection conditions do NOT
each carry a distinct message — a non-array argument and an empty array
are rejected with the very same message, so only two distinct messages
exist among the three conditions. -/
theorem c4_distinct_messages_counterexample :
    Batch.send BatchArg.notArray =
      .error ("JetEmail: emails array is required and must not be empty") ∧
    Batch.send (BatchArg.arr []) =
      .error ("JetEmail: emails array is required and must not be empty") :=
  ⟨rfl, rfl⟩

/-- C4 (amended): non-list, empty, and oversized (> 100) batch inputs are
all rejected before any network activity; the non-list and empty
conditions share the single message
`JetEmail: emails array is required and must not be empty`, while the
oversize condition has the distinct message
`JetEmail: maximum batch size is 100 emails`; a list of exactly 100
valid items passes the size check and reaches the dispatch call. -/
theorem c4_batch_shape_checks (es bigEs : List SendEmailOptions) :
    Batch.send BatchArg.notArray =
      .error ("JetEmail: emails array is required and must not be empty") ∧
    Batch.send (BatchArg.arr []) =
      .error ("JetEmail: emails array is required and must not be empty") ∧
    (100 < bigEs.length →
      Batch.send (.arr bigEs) = .error ("JetEmail: maximum batch size is 100 emails")) ∧
    ("JetEmail: emails array is required and must not be empty" ≠
      "JetEmail: maximum batch size is 100 emails") ∧
    (es.length = 100 → (∀ e ∈ es, Batch.validateEmailOptions e = .ok ()) →
      Batch.send (.arr es) =
        .ok ("/email-batch", Json.obj [("emails", Json.arr (es.map encodeOptions))])) ∧
    (∀ (c : Client) (t : FetchRequest → HttpResponse),
      fullBatchSend c t BatchArg.notArray =
        .error (.plainError ("JetEmail: emails array is required and must not be empty")) ∧
      fullBatchSend c t (BatchArg.arr []) =
        .error (.plainError ("JetEmail: emails array is required and must not be empty")) ∧
      (100 < bigEs.length →
        fullBatchSend c t (.arr bigEs) =
          .error (.plainError ("JetEmail: maximum batch size is 100 emails")))) := by
  refine ⟨rfl, rfl, ?_, by decide, ?_, ?_⟩
  · intro hlen
    have hne : bigEs.length ≠ 0 := by omega
    simp [Batch.send, hne, hlen]
  · intro hlen hval
    have hne : es.length ≠ 0 := by omega
    have hle : ¬ es.length > 100 := by omega
    have hok := validateFrom_ok es hval 0
    simp [Batch.send, hne, hle, hok]
  · intro c t
    refine ⟨rfl, rfl, ?_⟩
    intro hlen
    have hne : bigEs.length ≠ 0 := by omega
    simp [fullBatchSend, Batch.send, hne, hlen]

/-- C4 witness: 101 valid items are rejected by the size check while
exactly 100 valid items are accepted and handed to the dispatch routine. -/
theorem c4_batch_shape_checks_witness :
    Batch.send (.arr (List.replicate 101 sampleValid)) =
      .error ("JetEmail: maximum batch size is 100 emails") ∧
    Batch.send (.arr (List.replicate 100 sampleValid)) =
      .ok ("/email-batch",
        Json.obj [("emails", Json.arr ((List.replicate 100 sampleValid).map encodeOptions))]) := by
  have h := c4_batch_shape_checks (List.replicate 100 sampleValid)
    (List.replicate 101 sampleValid)
  refine ⟨h.2.2.1 (by simp), h.2.2.2.2.1 (by simp) ?_⟩
  intro e he
  rw [List.eq_of_mem_replicate he]
  rfl

/-- C5: construction raises synchronously when no credential is provided
(bare-string and configuration-record forms alike); otherwise the stored
base address is the supplied override with a single trailing slash
stripped, or `https://api.jetemail.com` when none is supplied. -/
theorem c5_constructor_normalization (k b : String) :
    mkJetEmail (.key "") = .error ("JetEmail: apiKey is required") ∧
    (∀ bu : Option String,
      mkJetEmail (.cfg { apiKey := "", baseUrl := bu }) =
        .error ("JetEmail: apiKey is required")) ∧
    (k ≠ "" → mkJetEmail (.key k) =
      .ok { apiKey := k, baseUrl := "https://api.jetemail.com" }) ∧
    (k ≠ "" → mkJetEmail (.cfg { apiKey := k }) =
      .ok { apiKey := k, baseUrl := "https://api.jetemail.com" }) ∧
    (k ≠ "" → mkJetEmail (.cfg { apiKey := k, baseUrl := some b }) =
      .ok { apiKey := k, baseUrl := stripTrailingSlash b }) ∧
    (b.data.getLast? = some '/' → stripTrailingSlash b = String.mk b.data.dropLast) ∧
    (b.data.getLast? ≠ some '/' → stripTrailingSlash b = b) ∧
    DEFAULT_BASE_URL = "https://api.jetemail.com" := by
  refine ⟨rfl, fun bu => rfl, ?_, ?_, ?_, ?_, ?_, rfl⟩
  · intro hk; simp [mkJetEmail, hk, DEFAULT_BASE_URL]
  · intro hk; simp [mkJetEmail, hk, DEFAULT_BASE_URL]
  · intro hk; simp [mkJetEmail, hk]
  · intro hb; simp [stripTrailingSlash, hb]
  · intro hb; simp [stripTrailingSlash, hb]

/-- C5 witness: a concrete key and override — the trailing slash of
`https://custom.test/` is stripped, the default applies when no override
is given, and only a single trailing slash is removed. -/
theorem c5_constructor_normalization_witness :
    mkJetEmail (.key "k1") = .ok { apiKey := "k1", baseUrl := "https://api.jetemail.com" } ∧
    mkJetEmail (.cfg { apiKey := "k1", baseUrl := some "https://custom.test/" }) =
      .ok { apiKey := "k1", baseUrl := "https://custom.test" } ∧
    mkJetEmail (.cfg { apiKey := "k1", baseUrl := some "https://custom.test//" }) =
      .ok { apiKey := "k1", baseUrl := "https://custom.test/" } ∧
    mkJetEmail (.key "") = .error ("JetEmail: apiKey is required") := by
  have h1 := c5_constructor_normalization "k1" "https://custom.test/"
  have h2 := c5_constructor_normalization "k1" "https://custom.test//"
  refine ⟨h1.2.2.1 (by decide), ?_, ?_, h1.1⟩
  · rw [h1.2.2.2.2.1 (by decide)]
    have : stripTrailingSlash "https://custom.test/" = "https://custom.test" := by decide
    rw [this]
  · rw [h2.2.2.2.2.1 (by decide)]
    have : stripTrailingSlash "https://custom.test//" = "https://custom.test/" := by decide
    rw [this]

/-- C8: the dispatch routine hands the transport exactly one request per
invocation — a POST to `baseUrl ++ endpoint` with exactly the two fixed
headers (`Content-Type: application/json` and
`Authorization: Bearer <key>`) and the JSON-serialized body; single-send
uses endpoint `/email` with the request object verbatim as body, and
batch-send uses `/email-batch` with the list wrapped under the single
field `emails`. -/
theorem c8_request_shape (c : Client) (endpoint : String) (body : Json)
    (o : SendEmailOptions) (es : List SendEmailOptions) :
    (buildFetchRequest c endpoint body).method = "POST" ∧
    (buildFetchRequest c endpoint body).url = c.baseUrl ++ endpoint ∧
    (buildFetchRequest c endpoint body).headers =
      [("Content-Type", "application/json"),
       ("Authorization", "Bearer " ++ c.apiKey)] ∧
    (buildFetchRequest c endpoint body).body = Json.stringify body ∧
    (∀ t : FetchRequest → HttpResponse,
      request c t endpoint body = handleResponse (t (buildFetchRequest c endpoint body))) ∧
    (Emails.validateEmailOptions o = .ok () →
      Emails.sendPrepare o = .ok ("/email", encodeOptions o)) ∧
    (es.length ≠ 0 → es.length ≤ 100 →
      (∀ e ∈ es, Batch.validateEmailOptions e = .ok ()) →
      Batch.send (.arr es) =
        .ok ("/email-batch", Json.obj [("emails", Json.arr (es.map encodeOptions))])) := by
  refine ⟨rfl, rfl, rfl, rfl, fun t => rfl, ?_, ?_⟩
  · intro hv
    simp [Emails.sendPrepare, hv]
  · intro hne hle hval
    have hgt : ¬ es.length > 100 := by omega
    have hok := validateFrom_ok es hval 0
    simp [Batch.send, hne, hgt, hok]

/-- C8 witness: a concrete client, a valid single-send request, and a
one-item batch produce the documented endpoints and wrapped bodies. -/
theorem c8_request_shape_witness :
    Emails.sendPrepare sampleValid = .ok ("/email", encodeOptions sampleValid) ∧
    Batch.send (.arr [sampleValid]) =
      .ok ("/email-batch", Json.obj [("emails", Json.arr ([sampleValid].map encodeOptions))]) ∧
    (buildFetchRequest { apiKey := "k1", baseUrl := "https://api.jetemail.com" }
      "/email" (encodeOptions sampleValid)).url = "https://api.jetemail.com" ++ "/email" := by
  have h := c8_request_shape { apiKey := "k1", baseUrl := "https://api.jetemail.com" }
    "/email" (encodeOptions sampleValid) sampleValid [sampleValid]
  refine ⟨h.2.2.2.2.2.1 rfl, h.2.2.2.2.2.2 (by simp) (by simp) ?_, h.2.1⟩
  intro e he
  rw [List.eq_of_mem_singleton he]
  rfl

/-- C9: local validation failures surface as plain errors
(`SdkError.plainError`, never the structured type), while every error the
dispatch routine raises is the structured `JetEmailError` carrying the
numeric response status code, surfaced as `SdkError.apiError`; the two
classes are distinguishable by construction. -/
theorem c9_error_type_distinction (c : Client) (t : FetchRequest → HttpResponse)
    (o : SendEmailOptions) (a : BatchArg) (resp : HttpResponse) :
    (∀ m, Emails.validateEmailOptions o = .error m →
      fullSend c t o = .error (SdkError.plainError m)) ∧
    (∀ m, Batch.send a = .error m →
      fullBatchSend c t a = .error (SdkError.plainError m)) ∧
    (∀ e, handleResponse resp = .error e → e.statusCode = resp.status) ∧
    (∀ e, fullSend c t o = .error (SdkError.apiError e) →
      ∃ body, Emails.sendPrepare o = .ok ("/email", body) ∧
        handleResponse (t (buildFetchRequest c "/email" body)) = .error e) ∧
    (∀ e, fullBatchSend c t a = .error (SdkError.apiError e) →
      ∃ ep body, Batch.send a = .ok (ep, body) ∧
        handleResponse (t (buildFetchRequest c ep body)) = .error e) := by
  refine ⟨?_, ?_, ?_, ?_, ?_⟩
  · intro m hm
    simp [fullSend, Emails.sendPrepare, hm]
  · intro m hm
    simp [fullBatchSend, hm]
  · intro e he
    cases hb : resp.body with
    | none =>
      simp [handleResponse, hb] at he
      simp [← he]
    | some data =>
      by_cases hs : statusOk resp.status = true
      · simp [handleResponse, hb, hs] at he
      · simp [handleResponse, hb, Bool.of_not_eq_true hs] at he
        simp [← he]
  · intro e he
    cases hv : Emails.validateEmailOptions o with
    | error m =>
      simp [fullSend, Emails.sendPrepare, hv] at he
    | ok u =>
      cases u
      have hprep : Emails.sendPrepare o = .ok ("/email", encodeOptions o) := by
        simp [Emails.sendPrepare, hv]
      cases hr : handleResponse (t (buildFetchRequest c "/email" (encodeOptions o))) with
      | error e2 =>
        refine ⟨encodeOptions o, hprep, ?_⟩
        simp [fullSend, hprep, request, hr] at he
        rw [hr, he]
      | ok d =>
        simp [fullSend, hprep, request, hr] at he
  · intro e he
    cases hsend : Batch.send a with
    | error m =>
      simp [fullBatchSend, hsend] at he
    | ok pr =>
      obtain ⟨ep, body⟩ := pr
      cases hr : handleResponse (t (buildFetchRequest c ep body)) with
      | error e2 =>
        refine ⟨ep, body, rfl, ?_⟩
        simp [fullBatchSend, hsend, request, hr] at he
        rw [hr, he]
      | ok d =>
        simp [fullBatchSend, hsend, request, hr] at he

/-- C9 witness: concretely, a request missing `from` gives a plain error,
a non-array batch gives a plain error, and a 400 response's structured
error carries status code 400. -/
theorem c9_error_type_distinction_witness :
    fullSend { apiKey := "k1", baseUrl := "https://api.jetemail.com" }
      (fun _ => { status := 400, body := some (Json.obj [("message", Json.str "bad")]) })
      sampleMissingFrom =
      .error (SdkError.plainError ("JetEmail: \"from\" is required")) ∧
    fullBatchSend { apiKey := "k1", baseUrl := "https://api.jetemail.com" }
      (fun _ => { status := 400, body := some (Json.obj [("message", Json.str "bad")]) })
      BatchArg.notArray =
      .error (SdkError.plainError ("JetEmail: emails array is required and must not be empty")) ∧
    JetEmailError.statusCode
      { message := "bad", statusCode := 400,
        response := some (Json.obj [("message", Json.str "bad")]) } = 400 := by
  have h := c9_error_type_distinction
    { apiKey := "k1", baseUrl := "https://api.jetemail.com" }
    (fun _ => { status := 400, body := some (Json.obj [("message", Json.str "bad")]) })
    sampleMissingFrom BatchArg.notArray
    { status := 400, body := some (Json.obj [("message", Json.str "bad")]) }
  exact ⟨h.1 _ rfl, h.2.1 _ rfl, h.2.2.1 _ rfl⟩

/-- C10: field presence is decided by JavaScript truthiness, so an empty
string counts as missing — requests whose `from`, `to`, or `subject` is
the empty string are rejected by both the single-send and the batch
validator with the corresponding "required" message, and a request with
`html` set to the empty string and no `text` is rejected for lacking
body content, even though the fields are present. -/
theorem c10_empty_string_treated_as_missing :
    Emails.validateEmailOptions
      { «from» := some "", «to» := some (.single "b@y.com"),
        subject := some "Hi", text := some "hello" } =
      .error ("JetEmail: \"from\" is required") ∧
    Emails.validateEmailOptions
      { «from» := some "A <a@x.com>", «to» := some (.single ""),
        subject := some "Hi", text := some "hello" } =
      .error ("JetEmail: \"to\" is required") ∧
    Emails.validateEmailOptions
      { «from» := some "A <a@x.com>", «to» := some (.single "b@y.com"),
        subject := some "", text := some "hello" } =
      .error ("JetEmail: \"subject\" is required") ∧
    Emails.validateEmailOptions
      { «from» := some "A <a@x.com>", «to» := some (.single "b@y.com"),
        subject := some "Hi", html := some "", text := none } =
      .error ("JetEmail: at least one of \"html\" or \"text\" is required") ∧
    Batch.validateEmailOptions
      { «from» := some "", «to» := some (.single "b@y.com"),
        subject := some "Hi", text := some "hello" } =
      .error ("JetEmail: \"from\" is required") ∧
    Batch.validateEmailOptions
      { «from» := some "A <a@x.com>", «to» := some (.single ""),
        subject := some "Hi", text := some "hello" } =
      .error ("JetEmail: \"to\" is required") ∧
    Batch.validateEmailOptions
      { «from» := some "A <a@x.com>", «to» := some (.single "b@y.com"),
        subject := some "", text := some "hello" } =
      .error ("JetEmail: \"subject\" is required") ∧
    Batch.validateEmailOptions
      { «from» := some "A <a@x.com>", «to» := some (.single "b@y.com"),
        subject := some "Hi", html := some "", text := none } =
      .error ("JetEmail: at least one of \"html\" or \"text\" is required") ∧
    Batch.send
      (.arr [{ «from» := some "", «to» := some (.single "b@y.com"),
               subject := some "Hi", text := some "hello" }]) =
      .error ("JetEmail: email at index 0 is invalid - JetEmail: \"from\" is required") ∧
    Emails.sendPrepare
      { «from» := some "", «to» := some (.single "b@y.com"),
        subject := some "Hi", text := some "hello" } =
      .error ("JetEmail: \"from\" is required") :=
  ⟨rfl, rfl, rfl, rfl, rfl, rfl, rfl, rfl, rfl, rfl⟩
